import Mathlib

/-!
Verification of the Concurrent Generation & Muxing Orchestrator
(`modal-video/test_video_with_audio.py`).

The development shallowly embeds the three pieces of the script:

* `generate_tts_with_gradient` — the audio task: credential check, submit,
  and the bounded poll loop (`max_wait = 120`, `poll_interval = 2`);
* `combine_video_audio` — the Muxer invocation: two ffprobe duration
  probes followed by one ffmpeg combine call;
* `run_parallel_generation` — the Orchestrator: the order-agnostic
  two-way join followed by the post-join decision table and the report.

HTTP responses, subprocess results and wall-clock readings are inputs
(environment parameters); the control flow is translated line by line
from the source.
-/

/-- Python truthiness of a `None`-or-`str` value: `None` and `""` are falsy. -/
def pyTruthy : Option String → Bool
  | none => false
  | some s => !s.isEmpty

/-- Python `a or b` on `None`-or-`str` values (used for
`result.get('audio_url') or result.get('output', ...).get('audio_url')`). -/
def pyOr (a b : Option String) : Option String :=
  if pyTruthy a then a else b

/-- Outcome of the audio task's body: a normal return of the saved audio
path, or the message of the raised exception. -/
inductive TTSOutcome where
  | success (path : String)
  | failure (reason : String)
deriving DecidableEq, Repr

/-- A status-query HTTP response: `response.ok` plus the decoded
`status` field of the JSON body (absent field modelled as `none`). -/
structure StatusResp where
  ok : Bool
  statusField : Option String
deriving DecidableEq, Repr

/-- The result-fetch HTTP response on `COMPLETE`: `response.ok`, the
top-level `audio_url` field, and the nested `output.audio_url` field. -/
structure ResultResp where
  ok : Bool
  audioUrl : Option String
  outputAudioUrl : Option String
deriving DecidableEq, Repr

/-- The submit (`POST /v1/async-invoke`) response: `response.ok` and the
`request_id` field of the body, which the source reads with `.get` and
never validates. -/
structure SubmitResp where
  ok : Bool
  requestId : Option String
deriving DecidableEq, Repr

/-- Local path the audio artifact is saved to (source line 140). -/
def audio_path : String := "/root/MOLTSTUDIOS/modal-video/test_audio.mp3"

/-- The `COMPLETE` branch of the poll loop (source lines 126-156)
restricted to runs in which neither the result fetch nor the artifact
download raises: one result fetch; failure when the fetch response is
not ok or the completed result lacks a (truthy) audio location.
`fetchResultE` is the full model of this branch, including the raising
paths and the unchecked artifact download of lines 139-151; the two
agree on non-raising runs (`fetchResultE_http`). -/
def fetchResult (r : ResultResp) : TTSOutcome :=
  if r.ok then
    if pyTruthy (pyOr r.audioUrl r.outputAudioUrl) then
      TTSOutcome.success audio_path
    else
      TTSOutcome.failure "No audio_url in response"
  else
    TTSOutcome.failure "Failed to get result"

/-- Whether a status response reports a terminal job status: the query
succeeded and the body's status is `COMPLETE` or `FAILED`. -/
def isTerminal (s : StatusResp) : Bool :=
  s.ok && (decide (s.statusField = some "COMPLETE")
    || decide (s.statusField = some "FAILED"))

/-- Whether a TTS outcome is a success. -/
def isSuccessOutcome : TTSOutcome → Bool
  | TTSOutcome.success _ => true
  | TTSOutcome.failure _ => false

/-- The poll loop of `generate_tts_with_gradient` (source lines 110-164)
restricted to runs in which every `requests.get` returns a response
object (no transport error raises); `pollGoE` is the full model
including raising calls, and agrees with this one on non-raising runs
(`pollGoE_agrees_pollGo`).  `query t` is the provider's response to the
status query of tick `t`; `res` is the provider's response to the single
result fetch.  The loop carries the tick index and the source's
`elapsed` counter (incremented by `interval` per tick, checked against
`maxWait` before each tick); `fuel` bounds the recursion and is
irrelevant once it covers the `elapsed` guard (`pollGo_fuel_stable`).
Returns the outcome, the final `elapsed` counter, and the number of
result fetches performed. -/
def pollGo (query : Nat → StatusResp) (res : ResultResp) (maxWait interval : Nat) :
    Nat → Nat → Nat → TTSOutcome × Nat × Nat
  | 0, _tick, elapsed => (TTSOutcome.failure "TTS generation timed out", elapsed, 0)
  | fuel + 1, tick, elapsed =>
    if elapsed < maxWait then
      let s := query tick
      if s.ok = false then
        pollGo query res maxWait interval fuel (tick + 1) (elapsed + interval)
      else if s.statusField = some "COMPLETE" then
        (fetchResult res, elapsed, 1)
      else if s.statusField = some "FAILED" then
        (TTSOutcome.failure "TTS job failed", elapsed, 0)
      else
        pollGo query res maxWait interval fuel (tick + 1) (elapsed + interval)
    else
      (TTSOutcome.failure "TTS generation timed out", elapsed, 0)

/-- The poll loop started as the source starts it: `elapsed = 0`, tick 0,
with fuel `maxWait + 1`, which suffices for any positive interval. -/
def pollLoop (query : Nat → StatusResp) (res : ResultResp) (maxWait interval : Nat) :
    TTSOutcome × Nat × Nat :=
  pollGo query res maxWait interval (maxWait + 1) 0 0

/-- `max_wait = 120` (source line 106). -/
def max_wait : Nat := 120

/-- `poll_interval = 2` (source line 107). -/
def poll_interval : Nat := 2

/-- The audio task `generate_tts_with_gradient` (source lines 67-164):
raise when the credential is falsy; raise when the submit response is not
ok; otherwise read `request_id` with `.get` (no validation) and run the
poll loop against the status endpoint of that handle.  `query h t` is the
provider's response to the status query for handle `h` at tick `t`. -/
def generate_tts_with_gradient (apiKey : Option String) (submit : SubmitResp)
    (query : Option String → Nat → StatusResp) (res : ResultResp) :
    TTSOutcome × Nat × Nat :=
  if pyTruthy apiKey = false then
    (TTSOutcome.failure "DO_GRADIENT_API_KEY environment variable required", 0, 0)
  else if submit.ok = false then
    (TTSOutcome.failure "TTS request failed", 0, 0)
  else
    pollLoop (query submit.requestId) res max_wait poll_interval

/-- The audio task as seen by the join: a raised exception becomes the
task's failure, a normal return carries the path and the elapsed time. -/
def tts_task (apiKey : Option String) (submit : SubmitResp)
    (query : Option String → Nat → StatusResp) (res : ResultResp) :
    Except String (String × Nat) :=
  match generate_tts_with_gradient apiKey submit query res with
  | (TTSOutcome.success p, e, _) => Except.ok (p, e)
  | (TTSOutcome.failure m, _, _) => Except.error m

/-- What one `requests.get` status call can do (source line 111): raise
(transport error — the message is the exception's text) or return a
response object. -/
inductive QueryResp where
  | raised (msg : String)
  | http (s : StatusResp)
deriving DecidableEq, Repr

/-- What the result-fetch `requests.get` call can do (source line 128):
raise, or return a response object. -/
inductive FetchResp where
  | raised (msg : String)
  | http (r : ResultResp)
deriving DecidableEq, Repr

/-- What the artifact-download `requests.get` call can do (source line
143): raise, or return a response — whose status the source never
checks before writing `audio_download.content` to the artifact file. -/
inductive DownloadResp where
  | raised (msg : String)
  | http (ok : Bool)
deriving DecidableEq, Repr

/-- The full model of the `COMPLETE` branch (source lines 126-156): the
single result fetch can raise; on an ok result with a truthy audio
location the artifact download runs — a raising download propagates as
the task's failure, but a returned download response is written to the
artifact file with no status check, so even a non-2xx download response
yields a success. -/
def fetchResultE (res : FetchResp) (dl : DownloadResp) : TTSOutcome :=
  match res with
  | FetchResp.raised m => TTSOutcome.failure m
  | FetchResp.http r =>
    if r.ok then
      if pyTruthy (pyOr r.audioUrl r.outputAudioUrl) then
        match dl with
        | DownloadResp.raised m => TTSOutcome.failure m
        | DownloadResp.http _ok => TTSOutcome.success audio_path
      else
        TTSOutcome.failure "No audio_url in response"
    else
      TTSOutcome.failure "Failed to get result"

/-- Whether a tick's status call lets the loop keep polling: a returned
response that is non-2xx or reports a pending status.  A raising call is
not such a tick — it aborts the loop. -/
def nonTerminalTick : QueryResp → Bool
  | QueryResp.raised _ => false
  | QueryResp.http s => !(isTerminal s)

/-- The full model of the poll loop (source lines 110-164), including
the raising paths of every `requests.get`: a status call that raises is
not caught anywhere in `generate_tts_with_gradient`, so the exception
propagates out of the loop and the outcome is that failure with no
further ticks.  Same carried state and result tuple as `pollGo`. -/
def pollGoE (query : Nat → QueryResp) (res : FetchResp) (dl : DownloadResp)
    (maxWait interval : Nat) : Nat → Nat → Nat → TTSOutcome × Nat × Nat
  | 0, _tick, elapsed => (TTSOutcome.failure "TTS generation timed out", elapsed, 0)
  | fuel + 1, tick, elapsed =>
    if elapsed < maxWait then
      match query tick with
      | QueryResp.raised m => (TTSOutcome.failure m, elapsed, 0)
      | QueryResp.http s =>
        if s.ok = false then
          pollGoE query res dl maxWait interval fuel (tick + 1) (elapsed + interval)
        else if s.statusField = some "COMPLETE" then
          (fetchResultE res dl, elapsed, 1)
        else if s.statusField = some "FAILED" then
          (TTSOutcome.failure "TTS job failed", elapsed, 0)
        else
          pollGoE query res dl maxWait interval fuel (tick + 1) (elapsed + interval)
    else
      (TTSOutcome.failure "TTS generation timed out", elapsed, 0)

/-- The full poll loop started as the source starts it. -/
def pollLoopE (query : Nat → QueryResp) (res : FetchResp) (dl : DownloadResp)
    (maxWait interval : Nat) : TTSOutcome × Nat × Nat :=
  pollGoE query res dl maxWait interval (maxWait + 1) 0 0

/-- The audio task over the full model: credential check, submit check,
then the full poll loop on the (unvalidated) handle. -/
def generate_tts_with_gradientE (apiKey : Option String) (submit : SubmitResp)
    (query : Option String → Nat → QueryResp) (res : FetchResp) (dl : DownloadResp) :
    TTSOutcome × Nat × Nat :=
  if pyTruthy apiKey = false then
    (TTSOutcome.failure "DO_GRADIENT_API_KEY environment variable required", 0, 0)
  else if submit.ok = false then
    (TTSOutcome.failure "TTS request failed", 0, 0)
  else
    pollLoopE (query submit.requestId) res dl max_wait poll_interval

/-- The full-model audio task as seen by the join: a raised exception
(including one raised by a status query or the download) becomes the
task's failure at the `future.result()` boundary. -/
def tts_taskE (apiKey : Option String) (submit : SubmitResp)
    (query : Option String → Nat → QueryResp) (res : FetchResp) (dl : DownloadResp) :
    Except String (String × Nat) :=
  match generate_tts_with_gradientE apiKey submit query res dl with
  | (TTSOutcome.success p, e, _) => Except.ok (p, e)
  | (TTSOutcome.failure m, _, _) => Except.error m

/-- The duration probe command built at source lines 173-176 for one
input path (the path sits at index 7 of the list). -/
def probe_cmd (input_path : String) : List String :=
  ["ffprobe", "-v", "error", "-show_entries", "format=duration",
   "-of", "default=noprint_wrappers=1:nokey=1", input_path]

/-- The command actually used for the audio-duration probe: the source
mutates `probe_cmd[5] = audio_path` (line 181), overwriting list index 5
rather than the input path at index 7. -/
def audio_probe_cmd (video_path audio_path : String) : List String :=
  (probe_cmd video_path).set 5 audio_path

/-- The ffmpeg combine command built at source lines 186-196. -/
def combine_cmd (video_path audio_path output_path : String) : List String :=
  ["ffmpeg", "-y",
   "-i", video_path,
   "-i", audio_path,
   "-c:v", "copy",
   "-c:a", "aac",
   "-shortest",
   "-map", "0:v:0",
   "-map", "1:a:0",
   output_path]

/-- The external processes the Muxer step calls: `probe cmd` is
`float(subprocess.check_output(cmd))` (error = raised exception),
`ffmpegExit cmd` is the returncode of `subprocess.run(cmd)`,
`muxStderr` is that run's captured stderr (printed on failure), and
`muxElapsed` is the wall-clock reading the step returns. -/
structure MuxEnv where
  probe : List String → Except String Rat
  ffmpegExit : List String → Int
  muxStderr : String
  muxElapsed : Nat

/-- Modelled from the spec: the external ffmpeg tool's duration policy is
not part of the repository source; per the spec, a combine invocation
that carries the `-shortest` flag trims the output to the shorter input's
duration, and without it the output spans the longer input. -/
def muxOutputDuration (cmd : List String) (video_duration audio_duration : Rat) : Rat :=
  if cmd.contains "-shortest" then min video_duration audio_duration
  else max video_duration audio_duration

/-- `combine_video_audio` (source lines 167-209): probe the video
duration (printing it), probe the audio duration with the mutated
command (printing it), print the Running line, run the combine command;
a non-zero exit prints the tool's stderr and raises.  Returns the
step's outcome (output path and elapsed wall-clock reading, or the
raised message) paired with the lines the step printed up to that point
(leading indentation and numeric formatting elided). -/
def combine_video_audio (env : MuxEnv) (video_path audio_path output_path : String) :
    Except String (String × Nat) × List String :=
  match env.probe (probe_cmd video_path) with
  | Except.error e => (Except.error e, [])
  | Except.ok video_duration =>
    match env.probe (audio_probe_cmd video_path audio_path) with
    | Except.error e =>
      (Except.error e, ["Video duration: " ++ toString video_duration ++ "s"])
    | Except.ok audio_duration =>
      if env.ffmpegExit (combine_cmd video_path audio_path output_path) ≠ 0 then
        (Except.error "FFmpeg failed",
         ["Video duration: " ++ toString video_duration ++ "s",
          "Audio duration: " ++ toString audio_duration ++ "s",
          "Running: ffmpeg -i " ++ video_path ++ " -i " ++ audio_path
            ++ " -shortest " ++ output_path,
          "❌ FFmpeg failed: " ++ env.muxStderr])
      else
        (Except.ok (output_path, env.muxElapsed),
         ["Video duration: " ++ toString video_duration ++ "s",
          "Audio duration: " ++ toString audio_duration ++ "s",
          "Running: ffmpeg -i " ++ video_path ++ " -i " ++ audio_path
            ++ " -shortest " ++ output_path,
          "✅ Combined in " ++ toString env.muxElapsed ++ "s",
          "Output: " ++ output_path])

/-- The two concurrent tasks, identified so the join can attribute a
completed future to the right slot (`future == video_future`). -/
inductive TaskId where
  | video
  | audio
deriving DecidableEq, Repr

/-- The join's accumulator (source lines 224-227): `video_path = None`,
`audio_path = None`, `video_time = 0`, `audio_time = 0`. -/
structure JoinState where
  videoPath : Option String
  audioPath : Option String
  videoTime : Nat
  audioTime : Nat
deriving DecidableEq, Repr

/-- Initial join state. -/
def initState : JoinState := ⟨none, none, 0, 0⟩

/-- The task outcomes, selected by identity. -/
def taskResult (video audio : Except String (String × Nat)) :
    TaskId → Except String (String × Nat)
  | TaskId.video => video
  | TaskId.audio => audio

/-- One iteration of the `as_completed` loop (source lines 240-249):
`future.result()` either returns and fills that task's slot, or raises
and is caught, leaving the state unchanged. -/
def processCompletion (st : JoinState) (id : TaskId)
    (r : Except String (String × Nat)) : JoinState :=
  match r with
  | Except.ok (p, t) =>
    match id with
    | TaskId.video => { st with videoPath := some p, videoTime := t }
    | TaskId.audio => { st with audioPath := some p, audioTime := t }
  | Except.error _ => st

/-- The completion-order-agnostic join: fold the `as_completed` iteration
over the arrival order of the two futures. -/
def joinAll (order : List TaskId) (video audio : Except String (String × Nat)) :
    JoinState :=
  order.foldl (fun st id => processCompletion st id (taskResult video audio id)) initState

/-- Output path of the video-only fallback (source line 257). -/
def video_only_output : String :=
  "/root/MOLTSTUDIOS/modal-video/test_final_video_only.mp4"

/-- Output path of the muxed artifact (source line 266). -/
def combined_output : String :=
  "/root/MOLTSTUDIOS/modal-video/test_final_with_audio.mp4"

/-- The run's terminal disposition. -/
inductive RunOutcome where
  | abortNoVideo
  | videoOnly (out : String)
  | muxFailed (msg : String)
  | combined (out : String)
deriving DecidableEq, Repr

/-- Observable effects of one orchestrator run: which tasks were
submitted to the executor, the disposition, the artifact produced (if
any), the artifact pair the Muxer was invoked with (if it was), and the
outcome-relevant lines printed after the join. -/
structure RunResult where
  launched : List TaskId
  outcome : RunOutcome
  outputPath : Option String
  muxInvokedWith : Option (String × String)
  printed : List String
deriving DecidableEq, Repr

/-- The post-join part of `run_parallel_generation` (source lines
251-289): the decision table and the report.  Banner prints are elided;
the decision messages and the summary block are kept. -/
def post_join (env : MuxEnv) (overall_time : Nat) (st : JoinState) : RunResult :=
  if pyTruthy st.videoPath = false then
    { launched := [TaskId.video, TaskId.audio],
      outcome := RunOutcome.abortNoVideo,
      outputPath := none,
      muxInvokedWith := none,
      printed := ["❌ Video generation failed - cannot proceed"] }
  else if pyTruthy st.audioPath = false then
    { launched := [TaskId.video, TaskId.audio],
      outcome := RunOutcome.videoOnly video_only_output,
      outputPath := some video_only_output,
      muxInvokedWith := none,
      printed := ["⚠️ Audio generation failed - outputting video only"] }
  else
    let vp := st.videoPath.getD ""
    let ap := st.audioPath.getD ""
    match combine_video_audio env vp ap combined_output with
    | (Except.error e, muxPrinted) =>
      { launched := [TaskId.video, TaskId.audio],
        outcome := RunOutcome.muxFailed e,
        outputPath := none,
        muxInvokedWith := some (vp, ap),
        printed := muxPrinted ++ ["❌ Combine failed: " ++ e] }
    | (Except.ok (out, combine_time), muxPrinted) =>
      { launched := [TaskId.video, TaskId.audio],
        outcome := RunOutcome.combined out,
        outputPath := some out,
        muxInvokedWith := some (vp, ap),
        printed := muxPrinted ++
                   ["📊 GENERATION SUMMARY",
                    "Video generation time: " ++ toString st.videoTime ++ "s",
                    "Audio generation time: " ++ toString st.audioTime ++ "s",
                    "Muxing time: " ++ toString combine_time ++ "s",
                    "Total wall time: " ++ toString overall_time ++ "s",
                    "🎬 Final output: " ++ out] }

/-- `run_parallel_generation` (source lines 212-289): both futures are
submitted unconditionally (lines 236-237), the join collects results in
arrival order, and the decision table follows. -/
def run_parallel_generation (env : MuxEnv) (order : List TaskId) (overall_time : Nat)
    (video audio : Except String (String × Nat)) : RunResult :=
  post_join env overall_time (joinAll order video audio)

/-- A provider whose status endpoint is unreachable on every tick. -/
def queryAllDown : Nat → StatusResp := fun _ => { ok := false, statusField := none }

/-- A well-formed result-fetch response with a usable audio location. -/
def resGood : ResultResp :=
  { ok := true, audioUrl := some "https://cdn.example/audio.mp3", outputAudioUrl := none }

/-- A provider reporting `COMPLETE` on the very first status query. -/
def queryCompleteNow : Nat → StatusResp :=
  fun _ => { ok := true, statusField := some "COMPLETE" }

/-- A handle-indexed provider whose status endpoint rejects every query. -/
def handleQueryAllDown : Option String → Nat → StatusResp :=
  fun _ _ => { ok := false, statusField := none }

/-- A 2xx submit response without a `request_id` field. -/
def submitNoId : SubmitResp := { ok := true, requestId := none }

/-- A 2xx submit response with a `request_id`. -/
def submitWithId : SubmitResp := { ok := true, requestId := some "req-1" }

/-- A status endpoint whose every call raises a transport error. -/
def queryRaiseNow : Nat → QueryResp :=
  fun _ => QueryResp.raised "requests ConnectionError"

/-- A status endpoint whose every call returns a non-2xx response. -/
def queryHttpAllDown : Nat → QueryResp :=
  fun _ => QueryResp.http { ok := false, statusField := none }

/-- A status endpoint reporting `COMPLETE` on the first returned call. -/
def queryCompleteNowE : Nat → QueryResp :=
  fun _ => QueryResp.http { ok := true, statusField := some "COMPLETE" }

/-- Handle-indexed version of `queryRaiseNow`. -/
def handleQueryRaise : Option String → Nat → QueryResp :=
  fun _ _ => QueryResp.raised "requests ConnectionError"

/-- Handle-indexed version of `queryCompleteNowE`. -/
def handleQueryCompleteE : Option String → Nat → QueryResp :=
  fun _ _ => QueryResp.http { ok := true, statusField := some "COMPLETE" }

/-- A benign external world: every probe parses to 5 seconds, ffmpeg
exits 0 with empty stderr, the mux step takes 1 second of wall clock. -/
def env0 : MuxEnv :=
  { probe := fun _ => Except.ok 5, ffmpegExit := fun _ => 0, muxStderr := "",
    muxElapsed := 1 }

/-- An external world whose combine tool always exits 1. -/
def envMuxFails : MuxEnv :=
  { probe := fun _ => Except.ok 5, ffmpegExit := fun _ => 1,
    muxStderr := "Invalid data found when processing input", muxElapsed := 1 }

/-- The local path the video task saves to (source line 55). -/
def video_path_saved : String := "/root/MOLTSTUDIOS/modal-video/test_video.mp4"

/-- The result fetch never yields the loop's timeout exception. -/
theorem fetchResult_ne_timeout (r : ResultResp) :
    fetchResult r ≠ TTSOutcome.failure "TTS generation timed out" := by
  unfold fetchResult
  split
  · split <;> decide
  · decide

/-- With the guard `elapsed < maxWait` false, the loop exits as timed out
without querying, for any fuel. -/
theorem pollGo_stop (query : Nat → StatusResp) (res : ResultResp)
    (maxWait interval fuel tick elapsed : Nat) (h : ¬ elapsed < maxWait) :
    pollGo query res maxWait interval fuel tick elapsed
      = (TTSOutcome.failure "TTS generation timed out", elapsed, 0) := by
  cases fuel with
  | zero => simp [pollGo]
  | succ fuel => simp [pollGo, h]

/-- A tick whose status query fails transiently, or succeeds but reports
a pending status, leaves the loop running: the state is unchanged except
that `elapsed` advances by exactly one poll interval. -/
theorem pollGo_step_nonterminal (query : Nat → StatusResp) (res : ResultResp)
    (maxWait interval fuel tick elapsed : Nat) (hguard : elapsed < maxWait)
    (hterm : isTerminal (query tick) = false) :
    pollGo query res maxWait interval (fuel + 1) tick elapsed
      = pollGo query res maxWait interval fuel (tick + 1) (elapsed + interval) := by
  cases hok : (query tick).ok with
  | false => simp [pollGo, hguard, hok]
  | true =>
    rw [isTerminal, hok] at hterm
    simp only [Bool.true_and, Bool.or_eq_false_iff, decide_eq_false_iff_not] at hterm
    simp [pollGo, hguard, hok, hterm.1, hterm.2]

/-- A tick that observes terminal success exits the loop with the result
of the single fetch, recording exactly one fetch. -/
theorem pollGo_step_complete (query : Nat → StatusResp) (res : ResultResp)
    (maxWait interval fuel tick elapsed : Nat) (hguard : elapsed < maxWait)
    (hok : (query tick).ok = true)
    (hc : (query tick).statusField = some "COMPLETE") :
    pollGo query res maxWait interval (fuel + 1) tick elapsed
      = (fetchResult res, elapsed, 1) := by
  simp [pollGo, hguard, hok, hc]

/-- A tick that observes terminal failure exits the loop with the job's
failure. -/
theorem pollGo_step_failed (query : Nat → StatusResp) (res : ResultResp)
    (maxWait interval fuel tick elapsed : Nat) (hguard : elapsed < maxWait)
    (hok : (query tick).ok = true)
    (hf : (query tick).statusField = some "FAILED") :
    pollGo query res maxWait interval (fuel + 1) tick elapsed
      = (TTSOutcome.failure "TTS job failed", elapsed, 0) := by
  have hne : (query tick).statusField ≠ some "COMPLETE" := by
    rw [hf]; decide
  simp [pollGo, hguard, hok, hne, hf]

/-- With fuel covering the guard, the loop times out exactly when no tick
inside the `max_wait` window observes a terminal status. -/
theorem pollGo_timeout_iff (query : Nat → StatusResp) (res : ResultResp)
    (maxWait interval : Nat) :
    ∀ fuel tick elapsed, maxWait ≤ elapsed + fuel * interval →
    ((pollGo query res maxWait interval fuel tick elapsed).1
        = TTSOutcome.failure "TTS generation timed out"
      ↔ ∀ j, elapsed + j * interval < maxWait → isTerminal (query (tick + j)) = false) := by
  intro fuel
  induction fuel with
  | zero =>
    intro tick elapsed hfuel
    simp only [Nat.zero_mul, Nat.add_zero] at hfuel
    rw [pollGo_stop query res maxWait interval 0 tick elapsed (by omega)]
    constructor
    · intro _ j hj
      have hle : elapsed ≤ elapsed + j * interval := Nat.le_add_right _ _
      exact absurd hj (not_lt.mpr (le_trans hfuel hle))
    · intro _; rfl
  | succ fuel ih =>
    intro tick elapsed hfuel
    by_cases hguard : elapsed < maxWait
    · cases hterm : isTerminal (query tick) with
      | false =>
        rw [pollGo_step_nonterminal query res maxWait interval fuel tick elapsed hguard hterm]
        have hfuel' : maxWait ≤ elapsed + interval + fuel * interval := by
          calc maxWait ≤ elapsed + (fuel + 1) * interval := hfuel
            _ = elapsed + interval + fuel * interval := by ring
        rw [ih (tick + 1) (elapsed + interval) hfuel']
        constructor
        · intro h j hj
          cases j with
          | zero => simpa using hterm
          | succ j =>
            have harith : elapsed + (j + 1) * interval
                = elapsed + interval + j * interval := by ring
            rw [harith] at hj
            have hterm2 := h j hj
            have heq : tick + 1 + j = tick + (j + 1) := by omega
            rw [heq] at hterm2
            exact hterm2
        · intro h j hj
          have harith : elapsed + interval + j * interval
              = elapsed + (j + 1) * interval := by ring
          rw [harith] at hj
          have hterm2 := h (j + 1) hj
          have heq : tick + (j + 1) = tick + 1 + j := by omega
          rw [heq] at hterm2
          exact hterm2
      | true =>
        have hnr : ¬ (∀ j, elapsed + j * interval < maxWait
            → isTerminal (query (tick + j)) = false) := by
          intro h
          have h0 := h 0 (by simpa using hguard)
          rw [Nat.add_zero] at h0
          rw [h0] at hterm
          exact Bool.false_ne_true hterm
        rw [isTerminal] at hterm
        simp only [Bool.and_eq_true, Bool.or_eq_true, decide_eq_true_eq] at hterm
        rcases hterm with ⟨hok, hc | hf⟩
        · rw [pollGo_step_complete query res maxWait interval fuel tick elapsed hguard hok hc]
          exact iff_of_false (fetchResult_ne_timeout res) hnr
        · rw [pollGo_step_failed query res maxWait interval fuel tick elapsed hguard hok hf]
          exact iff_of_false (fun h => by simp at h) hnr
    · rw [pollGo_stop query res maxWait interval (fuel + 1) tick elapsed hguard]
      have hge : maxWait ≤ elapsed := Nat.le_of_not_lt hguard
      constructor
      · intro _ j hj
        have hle : elapsed ≤ elapsed + j * interval := Nat.le_add_right _ _
        exact absurd hj (not_lt.mpr (le_trans hge hle))
      · intro _; rfl

/-- The `elapsed` counter on exit never reaches `maxWait + interval`: the
guard is checked before each tick, so the overshoot is below one poll
interval. -/
theorem pollGo_elapsed_lt (query : Nat → StatusResp) (res : ResultResp)
    (maxWait interval : Nat) :
    ∀ fuel tick elapsed, elapsed < maxWait + interval →
    (pollGo query res maxWait interval fuel tick elapsed).2.1 < maxWait + interval := by
  intro fuel
  induction fuel with
  | zero =>
    intro tick elapsed h
    simpa [pollGo] using h
  | succ fuel ih =>
    intro tick elapsed h
    by_cases hguard : elapsed < maxWait
    · cases hterm : isTerminal (query tick) with
      | false =>
        rw [pollGo_step_nonterminal query res maxWait interval fuel tick elapsed hguard hterm]
        exact ih (tick + 1) (elapsed + interval) (by omega)
      | true =>
        rw [isTerminal] at hterm
        simp only [Bool.and_eq_true, Bool.or_eq_true, decide_eq_true_eq] at hterm
        rcases hterm with ⟨hok, hc | hf⟩
        · rw [pollGo_step_complete query res maxWait interval fuel tick elapsed hguard hok hc]
          exact lt_of_lt_of_le hguard (Nat.le_add_right _ _)
        · rw [pollGo_step_failed query res maxWait interval fuel tick elapsed hguard hok hf]
          exact lt_of_lt_of_le hguard (Nat.le_add_right _ _)
    · rw [pollGo_stop query res maxWait interval (fuel + 1) tick elapsed hguard]
      exact h

/-- When the loop exits as timed out (with adequate fuel), the `elapsed`
counter has reached `maxWait`. -/
theorem pollGo_timeout_elapsed_ge (query : Nat → StatusResp) (res : ResultResp)
    (maxWait interval : Nat) :
    ∀ fuel tick elapsed, maxWait ≤ elapsed + fuel * interval →
    (pollGo query res maxWait interval fuel tick elapsed).1
        = TTSOutcome.failure "TTS generation timed out" →
    maxWait ≤ (pollGo query res maxWait interval fuel tick elapsed).2.1 := by
  intro fuel
  induction fuel with
  | zero =>
    intro tick elapsed hfuel _
    simp only [Nat.zero_mul, Nat.add_zero] at hfuel
    simpa [pollGo] using hfuel
  | succ fuel ih =>
    intro tick elapsed hfuel hout
    by_cases hguard : elapsed < maxWait
    · cases hterm : isTerminal (query tick) with
      | false =>
        rw [pollGo_step_nonterminal query res maxWait interval fuel tick elapsed hguard hterm]
          at hout ⊢
        have hfuel' : maxWait ≤ elapsed + interval + fuel * interval := by
          calc maxWait ≤ elapsed + (fuel + 1) * interval := hfuel
            _ = elapsed + interval + fuel * interval := by ring
        exact ih (tick + 1) (elapsed + interval) hfuel' hout
      | true =>
        rw [isTerminal] at hterm
        simp only [Bool.and_eq_true, Bool.or_eq_true, decide_eq_true_eq] at hterm
        rcases hterm with ⟨hok, hc | hf⟩
        · rw [pollGo_step_complete query res maxWait interval fuel tick elapsed hguard hok hc]
            at hout
          exact absurd hout (fetchResult_ne_timeout res)
        · rw [pollGo_step_failed query res maxWait interval fuel tick elapsed hguard hok hf]
            at hout
          simp at hout
    · rw [pollGo_stop query res maxWait interval (fuel + 1) tick elapsed hguard]
      exact Nat.le_of_not_lt hguard

/-- Extra fuel beyond the guard is irrelevant: the while loop terminates
at exactly the value `pollGo` computes. -/
theorem pollGo_fuel_stable (query : Nat → StatusResp) (res : ResultResp)
    (maxWait interval : Nat) :
    ∀ fuel extra tick elapsed, maxWait ≤ elapsed + fuel * interval →
    pollGo query res maxWait interval (fuel + extra) tick elapsed
      = pollGo query res maxWait interval fuel tick elapsed := by
  intro fuel
  induction fuel with
  | zero =>
    intro extra tick elapsed hfuel
    simp only [Nat.zero_mul, Nat.add_zero] at hfuel
    rw [pollGo_stop query res maxWait interval (0 + extra) tick elapsed (by omega),
      pollGo_stop query res maxWait interval 0 tick elapsed (by omega)]
  | succ fuel ih =>
    intro extra tick elapsed hfuel
    by_cases hguard : elapsed < maxWait
    · cases hterm : isTerminal (query tick) with
      | false =>
        have hshift : fuel + 1 + extra = (fuel + extra) + 1 := by omega
        rw [hshift,
          pollGo_step_nonterminal query res maxWait interval (fuel + extra) tick elapsed
            hguard hterm,
          pollGo_step_nonterminal query res maxWait interval fuel tick elapsed hguard hterm]
        have hfuel' : maxWait ≤ elapsed + interval + fuel * interval := by
          calc maxWait ≤ elapsed + (fuel + 1) * interval := hfuel
            _ = elapsed + interval + fuel * interval := by ring
        exact ih extra (tick + 1) (elapsed + interval) hfuel'
      | true =>
        rw [isTerminal] at hterm
        simp only [Bool.and_eq_true, Bool.or_eq_true, decide_eq_true_eq] at hterm
        rcases hterm with ⟨hok, hc | hf⟩
        · have hshift : fuel + 1 + extra = (fuel + extra) + 1 := by omega
          rw [hshift,
            pollGo_step_complete query res maxWait interval (fuel + extra) tick elapsed
              hguard hok hc,
            pollGo_step_complete query res maxWait interval fuel tick elapsed hguard hok hc]
        · have hshift : fuel + 1 + extra = (fuel + extra) + 1 := by omega
          rw [hshift,
            pollGo_step_failed query res maxWait interval (fuel + extra) tick elapsed
              hguard hok hf,
            pollGo_step_failed query res maxWait interval fuel tick elapsed hguard hok hf]
    · rw [pollGo_stop query res maxWait interval (fuel + 1 + extra) tick elapsed hguard,
        pollGo_stop query res maxWait interval (fuel + 1) tick elapsed hguard]

/-- The loop performs at most one result fetch over its whole run. -/
theorem pollGo_fetches_le_one (query : Nat → StatusResp) (res : ResultResp)
    (maxWait interval : Nat) :
    ∀ fuel tick elapsed, (pollGo query res maxWait interval fuel tick elapsed).2.2 ≤ 1 := by
  intro fuel
  induction fuel with
  | zero =>
    intro tick elapsed
    simp [pollGo]
  | succ fuel ih =>
    intro tick elapsed
    by_cases hguard : elapsed < maxWait
    · cases hterm : isTerminal (query tick) with
      | false =>
        rw [pollGo_step_nonterminal query res maxWait interval fuel tick elapsed hguard hterm]
        exact ih (tick + 1) (elapsed + interval)
      | true =>
        rw [isTerminal] at hterm
        simp only [Bool.and_eq_true, Bool.or_eq_true, decide_eq_true_eq] at hterm
        rcases hterm with ⟨hok, hc | hf⟩
        · rw [pollGo_step_complete query res maxWait interval fuel tick elapsed hguard hok hc]
        · rw [pollGo_step_failed query res maxWait interval fuel tick elapsed hguard hok hf]
          exact Nat.zero_le 1
    · rw [pollGo_stop query res maxWait interval (fuel + 1) tick elapsed hguard]
      exact Nat.zero_le 1

/-- Reaching the first terminal-success tick: when every tick before `j`
is non-terminal and tick `j` reports `COMPLETE` inside the window, the
loop exits at tick `j` with the fetched result, the `elapsed` counter at
`j` intervals, and exactly one fetch. -/
theorem pollGo_reach_complete (query : Nat → StatusResp) (res : ResultResp)
    (maxWait interval : Nat) :
    ∀ j fuel tick elapsed, j < fuel →
    (∀ k, k < j → isTerminal (query (tick + k)) = false) →
    elapsed + j * interval < maxWait →
    (query (tick + j)).ok = true →
    (query (tick + j)).statusField = some "COMPLETE" →
    pollGo query res maxWait interval fuel tick elapsed
      = (fetchResult res, elapsed + j * interval, 1) := by
  intro j
  induction j with
  | zero =>
    intro fuel tick elapsed hfuel _hfirst hrange hok hc
    cases fuel with
    | zero => omega
    | succ fuel =>
      simp only [Nat.zero_mul, Nat.add_zero] at hrange ⊢
      rw [Nat.add_zero] at hok hc
      exact pollGo_step_complete query res maxWait interval fuel tick elapsed hrange hok hc
  | succ j ih =>
    intro fuel tick elapsed hfuel hfirst hrange hok hc
    cases fuel with
    | zero => omega
    | succ fuel =>
      have hguard : elapsed < maxWait := by
        have hle : elapsed ≤ elapsed + (j + 1) * interval := Nat.le_add_right _ _
        omega
      have hterm0 : isTerminal (query tick) = false := by
        have := hfirst 0 (Nat.succ_pos j)
        rwa [Nat.add_zero] at this
      rw [pollGo_step_nonterminal query res maxWait interval fuel tick elapsed hguard hterm0]
      have harith : elapsed + interval + j * interval = elapsed + (j + 1) * interval := by
        ring
      have hfirst' : ∀ k, k < j → isTerminal (query (tick + 1 + k)) = false := by
        intro k hk
        have := hfirst (k + 1) (by omega)
        have heq : tick + (k + 1) = tick + 1 + k := by omega
        rwa [heq] at this
      have heqj : tick + (j + 1) = tick + 1 + j := by omega
      rw [heqj] at hok hc
      rw [ih fuel (tick + 1) (elapsed + interval) (by omega) hfirst' (by omega) hok hc]
      rw [harith]

/-- C2: the audio poll loop transitions to `TimedOut` iff no terminal
status is observed while the cumulative elapsed counter is below
`max_wait`; the guard is checked before each tick, the final counter
reaches `max_wait` but overshoots by less than one poll interval, and
the loop's value is stable under any extra fuel, so the while loop
always terminates. -/
theorem c2_poll_timeout_characterization (query : Nat → StatusResp) (res : ResultResp)
    (maxWait interval : Nat) (hi : 0 < interval) :
    ((pollLoop query res maxWait interval).1 = TTSOutcome.failure "TTS generation timed out"
      ↔ ∀ j, j * interval < maxWait → isTerminal (query j) = false)
  ∧ ((pollLoop query res maxWait interval).1 = TTSOutcome.failure "TTS generation timed out"
      → maxWait ≤ (pollLoop query res maxWait interval).2.1)
  ∧ (pollLoop query res maxWait interval).2.1 < maxWait + interval
  ∧ (∀ extra, pollGo query res maxWait interval (maxWait + 1 + extra) 0 0
      = pollLoop query res maxWait interval) := by
  have hone : maxWait + 1 ≤ (maxWait + 1) * interval := by
    calc maxWait + 1 = (maxWait + 1) * 1 := by ring
      _ ≤ (maxWait + 1) * interval := Nat.mul_le_mul_left _ hi
  have hfuel : maxWait ≤ 0 + (maxWait + 1) * interval := by omega
  refine ⟨?_, ?_, ?_, ?_⟩
  · have h := pollGo_timeout_iff query res maxWait interval (maxWait + 1) 0 0 hfuel
    simpa [pollLoop] using h
  · intro h
    rw [pollLoop] at h ⊢
    exact pollGo_timeout_elapsed_ge query res maxWait interval (maxWait + 1) 0 0 hfuel h
  · rw [pollLoop]
    exact pollGo_elapsed_lt query res maxWait interval (maxWait + 1) 0 0 (by omega)
  · intro extra
    rw [pollLoop]
    exact pollGo_fuel_stable query res maxWait interval (maxWait + 1) extra 0 0 hfuel

/-- Witness for C2 at the source's constants (`max_wait = 120`,
`poll_interval = 2`) and an always-unreachable provider. -/
theorem c2_witness :
    0 < 2
  ∧ (((pollLoop queryAllDown resGood 120 2).1
        = TTSOutcome.failure "TTS generation timed out"
      ↔ ∀ j, j * 2 < 120 → isTerminal (queryAllDown j) = false)
    ∧ ((pollLoop queryAllDown resGood 120 2).1
        = TTSOutcome.failure "TTS generation timed out"
      → 120 ≤ (pollLoop queryAllDown resGood 120 2).2.1)
    ∧ (pollLoop queryAllDown resGood 120 2).2.1 < 120 + 2
    ∧ (∀ extra, pollGo queryAllDown resGood 120 2 (120 + 1 + extra) 0 0
        = pollLoop queryAllDown resGood 120 2)) :=
  ⟨by decide, c2_poll_timeout_characterization queryAllDown resGood 120 2 (by decide)⟩

/-- On non-raising runs the full fetch model agrees with `fetchResult`;
in particular the download response's HTTP status does not matter. -/
theorem fetchResultE_http (r : ResultResp) (b : Bool) :
    fetchResultE (FetchResp.http r) (DownloadResp.http b) = fetchResult r := rfl

/-- With the guard false, the full loop exits as timed out, any fuel. -/
theorem pollGoE_stop (query : Nat → QueryResp) (res : FetchResp) (dl : DownloadResp)
    (maxWait interval fuel tick elapsed : Nat) (h : ¬ elapsed < maxWait) :
    pollGoE query res dl maxWait interval fuel tick elapsed
      = (TTSOutcome.failure "TTS generation timed out", elapsed, 0) := by
  cases fuel with
  | zero => simp [pollGoE]
  | succ fuel => simp [pollGoE, h]

/-- A status call that raises aborts the loop at once with that
exception: no retry, no elapsed advance, no fetch. -/
theorem pollGoE_step_raise (query : Nat → QueryResp) (res : FetchResp) (dl : DownloadResp)
    (maxWait interval fuel tick elapsed : Nat) (hguard : elapsed < maxWait)
    (m : String) (hq : query tick = QueryResp.raised m) :
    pollGoE query res dl maxWait interval (fuel + 1) tick elapsed
      = (TTSOutcome.failure m, elapsed, 0) := by
  simp [pollGoE, hguard, hq]

/-- A returned non-2xx or pending response leaves the loop running with
`elapsed` advanced by exactly one interval. -/
theorem pollGoE_step_nonterminal (query : Nat → QueryResp) (res : FetchResp)
    (dl : DownloadResp) (maxWait interval fuel tick elapsed : Nat)
    (hguard : elapsed < maxWait) (s : StatusResp) (hq : query tick = QueryResp.http s)
    (hterm : isTerminal s = false) :
    pollGoE query res dl maxWait interval (fuel + 1) tick elapsed
      = pollGoE query res dl maxWait interval fuel (tick + 1) (elapsed + interval) := by
  cases hok : s.ok with
  | false => simp [pollGoE, hguard, hq, hok]
  | true =>
    rw [isTerminal, hok] at hterm
    simp only [Bool.true_and, Bool.or_eq_false_iff, decide_eq_false_iff_not] at hterm
    simp [pollGoE, hguard, hq, hok, hterm.1, hterm.2]

/-- A returned `COMPLETE` exits with the full fetch model's result and
one recorded fetch. -/
theorem pollGoE_step_complete (query : Nat → QueryResp) (res : FetchResp)
    (dl : DownloadResp) (maxWait interval fuel tick elapsed : Nat)
    (hguard : elapsed < maxWait) (s : StatusResp) (hq : query tick = QueryResp.http s)
    (hok : s.ok = true) (hc : s.statusField = some "COMPLETE") :
    pollGoE query res dl maxWait interval (fuel + 1) tick elapsed
      = (fetchResultE res dl, elapsed, 1) := by
  simp [pollGoE, hguard, hq, hok, hc]

/-- A returned `FAILED` exits with the job's failure. -/
theorem pollGoE_step_failed (query : Nat → QueryResp) (res : FetchResp)
    (dl : DownloadResp) (maxWait interval fuel tick elapsed : Nat)
    (hguard : elapsed < maxWait) (s : StatusResp) (hq : query tick = QueryResp.http s)
    (hok : s.ok = true) (hf : s.statusField = some "FAILED") :
    pollGoE query res dl maxWait interval (fuel + 1) tick elapsed
      = (TTSOutcome.failure "TTS job failed", elapsed, 0) := by
  have hne : s.statusField ≠ some "COMPLETE" := by rw [hf]; decide
  simp [pollGoE, hguard, hq, hok, hne, hf]

/-- On runs where no call raises and the download returns, the full loop
agrees with the restricted `pollGo`. -/
theorem pollGoE_agrees_pollGo (query : Nat → StatusResp) (r : ResultResp) (b : Bool)
    (maxWait interval : Nat) :
    ∀ fuel tick elapsed,
    pollGoE (fun t => QueryResp.http (query t)) (FetchResp.http r) (DownloadResp.http b)
        maxWait interval fuel tick elapsed
      = pollGo query r maxWait interval fuel tick elapsed := by
  intro fuel
  induction fuel with
  | zero => intro tick elapsed; simp [pollGoE, pollGo]
  | succ fuel ih =>
    intro tick elapsed
    by_cases hguard : elapsed < maxWait
    · cases hok : (query tick).ok with
      | false =>
        rw [pollGoE_step_nonterminal _ _ _ maxWait interval fuel tick elapsed hguard
            (query tick) rfl (by simp [isTerminal, hok]),
          pollGo_step_nonterminal query r maxWait interval fuel tick elapsed hguard
            (by simp [isTerminal, hok])]
        exact ih (tick + 1) (elapsed + interval)
      | true =>
        by_cases hc : (query tick).statusField = some "COMPLETE"
        · rw [pollGoE_step_complete _ _ _ maxWait interval fuel tick elapsed hguard
              (query tick) rfl hok hc,
            pollGo_step_complete query r maxWait interval fuel tick elapsed hguard hok hc,
            fetchResultE_http]
        · by_cases hf : (query tick).statusField = some "FAILED"
          · rw [pollGoE_step_failed _ _ _ maxWait interval fuel tick elapsed hguard
                (query tick) rfl hok hf,
              pollGo_step_failed query r maxWait interval fuel tick elapsed hguard hok hf]
          · have hterm : isTerminal (query tick) = false := by
              simp [isTerminal, hok, hc, hf]
            rw [pollGoE_step_nonterminal _ _ _ maxWait interval fuel tick elapsed hguard
                (query tick) rfl hterm,
              pollGo_step_nonterminal query r maxWait interval fuel tick elapsed hguard
                hterm]
            exact ih (tick + 1) (elapsed + interval)
    · rw [pollGoE_stop _ _ _ maxWait interval (fuel + 1) tick elapsed hguard,
        pollGo_stop query r maxWait interval (fuel + 1) tick elapsed hguard]

/-- Reaching the first returned terminal status when it is `COMPLETE`:
every earlier tick returns non-2xx or pending, tick `j` returns
`COMPLETE` inside the window — the full loop exits at tick `j` with the
full fetch model's result and exactly one fetch. -/
theorem pollGoE_reach_complete (query : Nat → QueryResp) (res : FetchResp)
    (dl : DownloadResp) (maxWait interval : Nat) :
    ∀ j fuel tick elapsed, j < fuel →
    (∀ k, k < j → nonTerminalTick (query (tick + k)) = true) →
    elapsed + j * interval < maxWait →
    ∀ s, query (tick + j) = QueryResp.http s → s.ok = true →
    s.statusField = some "COMPLETE" →
    pollGoE query res dl maxWait interval fuel tick elapsed
      = (fetchResultE res dl, elapsed + j * interval, 1) := by
  intro j
  induction j with
  | zero =>
    intro fuel tick elapsed hfuel _hfirst hrange s hq hok hc
    cases fuel with
    | zero => omega
    | succ fuel =>
      simp only [Nat.zero_mul, Nat.add_zero] at hrange ⊢
      rw [Nat.add_zero] at hq
      exact pollGoE_step_complete query res dl maxWait interval fuel tick elapsed hrange
        s hq hok hc
  | succ j ih =>
    intro fuel tick elapsed hfuel hfirst hrange s hq hok hc
    cases fuel with
    | zero => omega
    | succ fuel =>
      have hguard : elapsed < maxWait := by
        have hle : elapsed ≤ elapsed + (j + 1) * interval := Nat.le_add_right _ _
        omega
      have h0 : nonTerminalTick (query tick) = true := by
        have := hfirst 0 (Nat.succ_pos j)
        rwa [Nat.add_zero] at this
      rcases hq0 : query tick with m | s0
      · rw [hq0] at h0
        simp [nonTerminalTick] at h0
      · rw [hq0] at h0
        have hterm0 : isTerminal s0 = false := by
          simpa [nonTerminalTick] using h0
        rw [pollGoE_step_nonterminal query res dl maxWait interval fuel tick elapsed
            hguard s0 hq0 hterm0]
        have harith : elapsed + interval + j * interval = elapsed + (j + 1) * interval := by
          ring
        have hfirst2 : ∀ k, k < j → nonTerminalTick (query (tick + 1 + k)) = true := by
          intro k hk
          have := hfirst (k + 1) (by omega)
          have heq : tick + (k + 1) = tick + 1 + k := by omega
          rwa [heq] at this
        have heqj : tick + (j + 1) = tick + 1 + j := by omega
        rw [heqj] at hq
        rw [ih fuel (tick + 1) (elapsed + interval) (by omega) hfirst2 (by omega) s hq
          hok hc]
        rw [harith]

/-- The full loop performs at most one result fetch over its run. -/
theorem pollGoE_fetches_le_one (query : Nat → QueryResp) (res : FetchResp)
    (dl : DownloadResp) (maxWait interval : Nat) :
    ∀ fuel tick elapsed,
    (pollGoE query res dl maxWait interval fuel tick elapsed).2.2 ≤ 1 := by
  intro fuel
  induction fuel with
  | zero => intro tick elapsed; simp [pollGoE]
  | succ fuel ih =>
    intro tick elapsed
    by_cases hguard : elapsed < maxWait
    · rcases hq : query tick with m | s
      · rw [pollGoE_step_raise query res dl maxWait interval fuel tick elapsed hguard m hq]
        exact Nat.zero_le 1
      · cases hok : s.ok with
        | false =>
          rw [pollGoE_step_nonterminal query res dl maxWait interval fuel tick elapsed
              hguard s hq (by simp [isTerminal, hok])]
          exact ih (tick + 1) (elapsed + interval)
        | true =>
          by_cases hc : s.statusField = some "COMPLETE"
          · rw [pollGoE_step_complete query res dl maxWait interval fuel tick elapsed
                hguard s hq hok hc]
          · by_cases hf : s.statusField = some "FAILED"
            · rw [pollGoE_step_failed query res dl maxWait interval fuel tick elapsed
                  hguard s hq hok hf]
              exact Nat.zero_le 1
            · rw [pollGoE_step_nonterminal query res dl maxWait interval fuel tick elapsed
                  hguard s hq (by simp [isTerminal, hok, hc, hf])]
              exact ih (tick + 1) (elapsed + interval)
    · rw [pollGoE_stop query res dl maxWait interval (fuel + 1) tick elapsed hguard]
      exact Nat.zero_le 1

set_option maxRecDepth 8192 in
/-- C3 counterexample: a transport error on the first status query is
not retried — the audio task terminates at once with the exception and
the elapsed counter still 0 — whereas a non-2xx response on every tick
is retried until the `max_wait` timeout; the two failure kinds the
claim equates behave differently. -/
theorem c3_counterexample :
    tts_taskE (some "do-key") submitWithId handleQueryRaise
        (FetchResp.http resGood) (DownloadResp.http true)
      = Except.error "requests ConnectionError"
  ∧ pollLoopE queryRaiseNow (FetchResp.http resGood) (DownloadResp.http true) 120 2
      = (TTSOutcome.failure "requests ConnectionError", 0, 0)
  ∧ pollLoopE queryHttpAllDown (FetchResp.http resGood) (DownloadResp.http true) 120 2
      = (TTSOutcome.failure "TTS generation timed out", 120, 0) :=
  ⟨rfl, rfl, by decide⟩

/-- C3 (amended): only a status query that returns a non-2xx response is
retried — such a tick leaves the loop's state unchanged and advances
`elapsed` by exactly one poll interval, identically to a returned
pending response; a status query that raises (transport error) is not
caught: it terminates the audio task at once. -/
theorem c3_non2xx_retried_transport_fatal (query : Nat → QueryResp) (res : FetchResp)
    (dl : DownloadResp) (maxWait interval fuel tick elapsed : Nat)
    (hguard : elapsed < maxWait) :
    (∀ s, query tick = QueryResp.http s → s.ok = false →
      pollGoE query res dl maxWait interval (fuel + 1) tick elapsed
        = pollGoE query res dl maxWait interval fuel (tick + 1) (elapsed + interval))
  ∧ (∀ s, query tick = QueryResp.http s → s.ok = true → isTerminal s = false →
      pollGoE query res dl maxWait interval (fuel + 1) tick elapsed
        = pollGoE query res dl maxWait interval fuel (tick + 1) (elapsed + interval))
  ∧ (∀ m, query tick = QueryResp.raised m →
      pollGoE query res dl maxWait interval (fuel + 1) tick elapsed
        = (TTSOutcome.failure m, elapsed, 0)) := by
  refine ⟨fun s hq hok => ?_, fun s hq _hok hterm => ?_, fun m hq => ?_⟩
  · exact pollGoE_step_nonterminal query res dl maxWait interval fuel tick elapsed hguard
      s hq (by simp [isTerminal, hok])
  · exact pollGoE_step_nonterminal query res dl maxWait interval fuel tick elapsed hguard
      s hq hterm
  · exact pollGoE_step_raise query res dl maxWait interval fuel tick elapsed hguard m hq

/-- Witness for C3 (amended) at the source's constants. -/
theorem c3_witness :
    (0 : Nat) < 120
  ∧ ((∀ s, queryHttpAllDown 0 = QueryResp.http s → s.ok = false →
      pollGoE queryHttpAllDown (FetchResp.http resGood) (DownloadResp.http true)
          120 2 (60 + 1) 0 0
        = pollGoE queryHttpAllDown (FetchResp.http resGood) (DownloadResp.http true)
          120 2 60 (0 + 1) (0 + 2))
    ∧ (∀ s, queryHttpAllDown 0 = QueryResp.http s → s.ok = true → isTerminal s = false →
      pollGoE queryHttpAllDown (FetchResp.http resGood) (DownloadResp.http true)
          120 2 (60 + 1) 0 0
        = pollGoE queryHttpAllDown (FetchResp.http resGood) (DownloadResp.http true)
          120 2 60 (0 + 1) (0 + 2))
    ∧ (∀ m, queryHttpAllDown 0 = QueryResp.raised m →
      pollGoE queryHttpAllDown (FetchResp.http resGood) (DownloadResp.http true)
          120 2 (60 + 1) 0 0
        = (TTSOutcome.failure m, 0, 0))) :=
  ⟨by decide,
    c3_non2xx_retried_transport_fatal queryHttpAllDown (FetchResp.http resGood)
      (DownloadResp.http true) 120 2 60 0 0 (by decide)⟩

/-- C8 counterexample: the job completes on the first tick, the result
fetch succeeds with an artifact reference, and the artifact download
returns a non-2xx response — the source writes the response body to the
artifact file without any status check and the audio task resolves to
success: a partial (corrupt) success, which the claim rules out. -/
theorem c8_counterexample :
    pollLoopE queryCompleteNowE (FetchResp.http resGood) (DownloadResp.http false) 120 2
      = (TTSOutcome.success audio_path, 0, 1)
  ∧ tts_taskE (some "do-key") submitWithId handleQueryCompleteE
        (FetchResp.http resGood) (DownloadResp.http false)
      = Except.ok (audio_path, 0)
  ∧ isSuccessOutcome (fetchResultE (FetchResp.http resGood) (DownloadResp.http false))
      = true :=
  ⟨rfl, rfl, rfl⟩

/-- C8 (amended): when tick `j` is the first whose status call returns a
terminal status and it reports `COMPLETE`, the loop exits there having
performed exactly one result fetch (and never performs more than one
over any run); a raising result fetch, a non-2xx result response, a
missing artifact reference, and a raising artifact download each
resolve the task to Failure — but the artifact download's response is
never status-checked, so even a non-2xx download yields a success. -/
theorem c8_complete_fetch_modes (query : Nat → QueryResp) (res : FetchResp)
    (dl : DownloadResp) (maxWait interval j : Nat) (hi : 0 < interval)
    (hfirst : ∀ k, k < j → nonTerminalTick (query k) = true)
    (hrange : j * interval < maxWait)
    (s : StatusResp) (hq : query j = QueryResp.http s)
    (hok : s.ok = true) (hc : s.statusField = some "COMPLETE") :
    pollLoopE query res dl maxWait interval = (fetchResultE res dl, j * interval, 1)
  ∧ (∀ m dl2, fetchResultE (FetchResp.raised m) dl2 = TTSOutcome.failure m)
  ∧ (∀ r : ResultResp, ∀ dl2, r.ok = false →
      fetchResultE (FetchResp.http r) dl2 = TTSOutcome.failure "Failed to get result")
  ∧ (∀ r : ResultResp, ∀ dl2, r.ok = true →
      pyTruthy (pyOr r.audioUrl r.outputAudioUrl) = false →
      fetchResultE (FetchResp.http r) dl2 = TTSOutcome.failure "No audio_url in response")
  ∧ (∀ r : ResultResp, ∀ m, r.ok = true →
      pyTruthy (pyOr r.audioUrl r.outputAudioUrl) = true →
      fetchResultE (FetchResp.http r) (DownloadResp.raised m) = TTSOutcome.failure m)
  ∧ (∀ r : ResultResp, ∀ b : Bool, r.ok = true →
      pyTruthy (pyOr r.audioUrl r.outputAudioUrl) = true →
      fetchResultE (FetchResp.http r) (DownloadResp.http b)
        = TTSOutcome.success audio_path)
  ∧ (∀ fuel tick elapsed,
      (pollGoE query res dl maxWait interval fuel tick elapsed).2.2 ≤ 1) := by
  refine ⟨?_, ?_, ?_, ?_, ?_, ?_,
    fun fuel tick elapsed =>
      pollGoE_fetches_le_one query res dl maxWait interval fuel tick elapsed⟩
  · have hj : j < maxWait + 1 := by
      have hjle : j ≤ j * interval := by
        calc j = j * 1 := by ring
          _ ≤ j * interval := Nat.mul_le_mul_left _ hi
      omega
    have hfirst2 : ∀ k, k < j → nonTerminalTick (query (0 + k)) = true := by
      intro k hk
      rw [Nat.zero_add]
      exact hfirst k hk
    have h := pollGoE_reach_complete query res dl maxWait interval j (maxWait + 1) 0 0 hj
      hfirst2 (by omega) s (by rwa [Nat.zero_add]) hok hc
    simpa [pollLoopE] using h
  · intro m dl2
    rfl
  · intro r dl2 h1
    simp [fetchResultE, h1]
  · intro r dl2 h1 h2
    simp [fetchResultE, h1, h2]
  · intro r m h1 h2
    simp [fetchResultE, h1, h2]
  · intro r b h1 h2
    simp [fetchResultE, h1, h2]

/-- Witness for C8 (amended): terminal success returned at tick 0. -/
theorem c8_witness :
    0 < 2
  ∧ (0 : Nat) * 2 < 120
  ∧ queryCompleteNowE 0 = QueryResp.http { ok := true, statusField := some "COMPLETE" }
  ∧ (pollLoopE queryCompleteNowE (FetchResp.http resGood) (DownloadResp.http true) 120 2
        = (fetchResultE (FetchResp.http resGood) (DownloadResp.http true), 0 * 2, 1)
    ∧ (∀ m dl2, fetchResultE (FetchResp.raised m) dl2 = TTSOutcome.failure m)
    ∧ (∀ r : ResultResp, ∀ dl2, r.ok = false →
        fetchResultE (FetchResp.http r) dl2 = TTSOutcome.failure "Failed to get result")
    ∧ (∀ r : ResultResp, ∀ dl2, r.ok = true →
        pyTruthy (pyOr r.audioUrl r.outputAudioUrl) = false →
        fetchResultE (FetchResp.http r) dl2
          = TTSOutcome.failure "No audio_url in response")
    ∧ (∀ r : ResultResp, ∀ m, r.ok = true →
        pyTruthy (pyOr r.audioUrl r.outputAudioUrl) = true →
        fetchResultE (FetchResp.http r) (DownloadResp.raised m) = TTSOutcome.failure m)
    ∧ (∀ r : ResultResp, ∀ b : Bool, r.ok = true →
        pyTruthy (pyOr r.audioUrl r.outputAudioUrl) = true →
        fetchResultE (FetchResp.http r) (DownloadResp.http b)
          = TTSOutcome.success audio_path)
    ∧ (∀ fuel tick elapsed,
        (pollGoE queryCompleteNowE (FetchResp.http resGood) (DownloadResp.http true)
          120 2 fuel tick elapsed).2.2 ≤ 1)) :=
  ⟨by decide, by decide, rfl,
    c8_complete_fetch_modes queryCompleteNowE (FetchResp.http resGood)
      (DownloadResp.http true) 120 2 0 (by decide)
      (fun k hk => absurd hk (Nat.not_lt_zero k)) (by decide)
      { ok := true, statusField := some "COMPLETE" } rfl (by decide) (by decide)⟩

/-- C10: a 2xx submit response whose body lacks `request_id` is not a
submit-time failure — the poll loop still runs, with the `None` handle
threaded into every status query; if the provider then answers every
malformed query with a non-2xx response, the task resolves via the
transient-retry path exhausting `max_wait`, never via an immediate
submit-time error. -/
theorem c10_missing_request_id (apiKey : Option String) (submit : SubmitResp)
    (query : Option String → Nat → StatusResp) (res : ResultResp)
    (hk : pyTruthy apiKey = true) (hok : submit.ok = true)
    (hid : submit.requestId = none) :
    generate_tts_with_gradient apiKey submit query res
        = pollLoop (query none) res max_wait poll_interval
  ∧ ((∀ t, (query none t).ok = false) →
      (generate_tts_with_gradient apiKey submit query res).1
          = TTSOutcome.failure "TTS generation timed out"
        ∧ max_wait ≤ (generate_tts_with_gradient apiKey submit query res).2.1
        ∧ (generate_tts_with_gradient apiKey submit query res).2.1
            < max_wait + poll_interval) := by
  have heq : generate_tts_with_gradient apiKey submit query res
      = pollLoop (query none) res max_wait poll_interval := by
    unfold generate_tts_with_gradient
    rw [hk, hok, hid]
    simp
  refine ⟨heq, fun hdown => ?_⟩
  have hfuel : max_wait ≤ 0 + (max_wait + 1) * poll_interval := by decide
  have htim : (pollLoop (query none) res max_wait poll_interval).1
      = TTSOutcome.failure "TTS generation timed out" := by
    rw [pollLoop,
      pollGo_timeout_iff (query none) res max_wait poll_interval (max_wait + 1) 0 0 hfuel]
    intro t _
    simp [isTerminal, hdown]
  have hgeq : max_wait ≤ (pollLoop (query none) res max_wait poll_interval).2.1 := by
    rw [pollLoop] at htim ⊢
    exact pollGo_timeout_elapsed_ge (query none) res max_wait poll_interval
      (max_wait + 1) 0 0 hfuel htim
  have hlt : (pollLoop (query none) res max_wait poll_interval).2.1
      < max_wait + poll_interval := by
    rw [pollLoop]
    exact pollGo_elapsed_lt (query none) res max_wait poll_interval (max_wait + 1) 0 0
      (by decide)
  rw [heq]
  exact ⟨htim, hgeq, hlt⟩

/-- Witness for C10: a present credential, an ok submit without
`request_id`, an always-failing status endpoint. -/
theorem c10_witness :
    pyTruthy (some "do-key") = true
  ∧ submitNoId.ok = true
  ∧ submitNoId.requestId = none
  ∧ (generate_tts_with_gradient (some "do-key") submitNoId handleQueryAllDown resGood
        = pollLoop (handleQueryAllDown none) resGood max_wait poll_interval
    ∧ ((∀ t, (handleQueryAllDown none t).ok = false) →
        (generate_tts_with_gradient (some "do-key") submitNoId handleQueryAllDown resGood).1
            = TTSOutcome.failure "TTS generation timed out"
          ∧ max_wait ≤ (generate_tts_with_gradient (some "do-key") submitNoId
              handleQueryAllDown resGood).2.1
          ∧ (generate_tts_with_gradient (some "do-key") submitNoId
              handleQueryAllDown resGood).2.1 < max_wait + poll_interval)) :=
  ⟨by decide, by decide, by decide,
    c10_missing_request_id (some "do-key") submitNoId handleQueryAllDown resGood
      (by decide) (by decide) (by decide)⟩

/-- `None` is falsy. -/
theorem pyTruthy_none : pyTruthy none = false := rfl

/-- The two-way join attributes each result to its slot by identity,
for either arrival order, with a raised task contributing no path. -/
theorem joinAll_pair (video audio : Except String (String × Nat)) (order : List TaskId)
    (ho : order = [TaskId.video, TaskId.audio] ∨ order = [TaskId.audio, TaskId.video]) :
    joinAll order video audio =
      { videoPath := (video.toOption).map Prod.fst,
        audioPath := (audio.toOption).map Prod.fst,
        videoTime := ((video.toOption).map Prod.snd).getD 0,
        audioTime := ((audio.toOption).map Prod.snd).getD 0 } := by
  rcases ho with h | h <;> subst h <;>
    rcases video with e1 | ⟨vp, vt⟩ <;> rcases audio with e2 | ⟨ap, av⟩ <;>
      simp [joinAll, processCompletion, taskResult, initState, Except.toOption]

/-- C1: the post-join action matches the decision table on all four
outcome pairs — both succeed: the Muxer is invoked with both artifacts;
video-only: the video-only artifact is emitted and the run is not a
failure; audio-only: abort with no deliverable; both fail: abort. -/
theorem c1_decision_table (env : MuxEnv) (order : List TaskId) (ot : Nat)
    (ho : order = [TaskId.video, TaskId.audio] ∨ order = [TaskId.audio, TaskId.video])
    (vp ap e1 e2 : String) (vt av : Nat)
    (hv : pyTruthy (some vp) = true) (ha : pyTruthy (some ap) = true) :
    (run_parallel_generation env order ot
        (Except.ok (vp, vt)) (Except.ok (ap, av))).muxInvokedWith = some (vp, ap)
  ∧ ((run_parallel_generation env order ot
        (Except.ok (vp, vt)) (Except.error e2)).outcome
          = RunOutcome.videoOnly video_only_output
    ∧ (run_parallel_generation env order ot
        (Except.ok (vp, vt)) (Except.error e2)).outputPath = some video_only_output)
  ∧ ((run_parallel_generation env order ot
        (Except.error e1) (Except.ok (ap, av))).outcome = RunOutcome.abortNoVideo
    ∧ (run_parallel_generation env order ot
        (Except.error e1) (Except.ok (ap, av))).outputPath = none)
  ∧ ((run_parallel_generation env order ot
        (Except.error e1) (Except.error e2)).outcome = RunOutcome.abortNoVideo
    ∧ (run_parallel_generation env order ot
        (Except.error e1) (Except.error e2)).outputPath = none) := by
  refine ⟨?_, ⟨?_, ?_⟩, ⟨?_, ?_⟩, ⟨?_, ?_⟩⟩ <;>
      rw [run_parallel_generation, joinAll_pair _ _ order ho]
  · rcases hcomb : combine_video_audio env vp ap combined_output with
      ⟨e | ⟨out, ct⟩, muxPr⟩ <;>
        simp [post_join, hv, ha, hcomb, Except.toOption]
  all_goals simp [post_join, hv, ha, pyTruthy_none, Except.toOption]

/-- Witness for C1 on a benign environment and the source's saved
paths. -/
theorem c1_witness :
    pyTruthy (some video_path_saved) = true
  ∧ pyTruthy (some audio_path) = true
  ∧ ((run_parallel_generation env0 [TaskId.video, TaskId.audio] 41
        (Except.ok (video_path_saved, 40)) (Except.ok (audio_path, 15))).muxInvokedWith
          = some (video_path_saved, audio_path)
    ∧ ((run_parallel_generation env0 [TaskId.video, TaskId.audio] 41
          (Except.ok (video_path_saved, 40)) (Except.error "TTS job failed")).outcome
            = RunOutcome.videoOnly video_only_output
      ∧ (run_parallel_generation env0 [TaskId.video, TaskId.audio] 41
          (Except.ok (video_path_saved, 40)) (Except.error "TTS job failed")).outputPath
            = some video_only_output)
    ∧ ((run_parallel_generation env0 [TaskId.video, TaskId.audio] 41
          (Except.error "Video generation failed") (Except.ok (audio_path, 15))).outcome
            = RunOutcome.abortNoVideo
      ∧ (run_parallel_generation env0 [TaskId.video, TaskId.audio] 41
          (Except.error "Video generation failed") (Except.ok (audio_path, 15))).outputPath
            = none)
    ∧ ((run_parallel_generation env0 [TaskId.video, TaskId.audio] 41
          (Except.error "Video generation failed") (Except.error "TTS job failed")).outcome
            = RunOutcome.abortNoVideo
      ∧ (run_parallel_generation env0 [TaskId.video, TaskId.audio] 41
          (Except.error "Video generation failed") (Except.error "TTS job failed")).outputPath
            = none)) :=
  ⟨by decide, by decide,
    c1_decision_table env0 [TaskId.video, TaskId.audio] 41 (Or.inl rfl)
      video_path_saved audio_path "Video generation failed" "TTS job failed" 40 15
      (by decide) (by decide)⟩

/-- C4: an exception in either task is caught at the boundary and leaves
only that task's slot unfilled; both slots are observed by identity for
either completion order, so the run always reaches the decision table
with the sibling's result intact (the whole run is insensitive to the
arrival order). -/
theorem c4_join_reaches_decision (env : MuxEnv) (order : List TaskId) (ot : Nat)
    (video audio : Except String (String × Nat))
    (ho : order = [TaskId.video, TaskId.audio] ∨ order = [TaskId.audio, TaskId.video]) :
    (joinAll order video audio).videoPath = (video.toOption).map Prod.fst
  ∧ (joinAll order video audio).audioPath = (audio.toOption).map Prod.fst
  ∧ run_parallel_generation env order ot video audio
      = run_parallel_generation env [TaskId.video, TaskId.audio] ot video audio := by
  rw [run_parallel_generation, run_parallel_generation,
    joinAll_pair video audio order ho,
    joinAll_pair video audio [TaskId.video, TaskId.audio] (Or.inl rfl)]
  exact ⟨rfl, rfl, rfl⟩

/-- Witness for C4: audio raises, audio finishes first. -/
theorem c4_witness :
    ([TaskId.audio, TaskId.video] = [TaskId.video, TaskId.audio]
      ∨ [TaskId.audio, TaskId.video] = [TaskId.audio, TaskId.video])
  ∧ ((joinAll [TaskId.audio, TaskId.video]
        (Except.ok (video_path_saved, 40))
        (Except.error "No audio_url in response")).videoPath
      = ((Except.ok (video_path_saved, 40) : Except String (String × Nat)).toOption).map
          Prod.fst
    ∧ (joinAll [TaskId.audio, TaskId.video]
        (Except.ok (video_path_saved, 40))
        (Except.error "No audio_url in response")).audioPath
      = ((Except.error "No audio_url in response" : Except String (String × Nat)).toOption).map
          Prod.fst
    ∧ run_parallel_generation env0 [TaskId.audio, TaskId.video] 41
        (Except.ok (video_path_saved, 40)) (Except.error "No audio_url in response")
      = run_parallel_generation env0 [TaskId.video, TaskId.audio] 41
        (Except.ok (video_path_saved, 40)) (Except.error "No audio_url in response")) :=
  ⟨Or.inr rfl,
    c4_join_reaches_decision env0 [TaskId.audio, TaskId.video] 41
      (Except.ok (video_path_saved, 40)) (Except.error "No audio_url in response")
      (Or.inr rfl)⟩

/-- C6: once both generation tasks have succeeded, a non-zero exit of
the external combine tool terminates the run as a mux failure with no
output artifact — there is no fallback to the video-only artifact. -/
theorem c6_mux_error_terminal (env : MuxEnv) (order : List TaskId) (ot : Nat)
    (ho : order = [TaskId.video, TaskId.audio] ∨ order = [TaskId.audio, TaskId.video])
    (vp ap : String) (vt av : Nat)
    (hv : pyTruthy (some vp) = true) (ha : pyTruthy (some ap) = true)
    (dv da : Rat)
    (hp1 : env.probe (probe_cmd vp) = Except.ok dv)
    (hp2 : env.probe (audio_probe_cmd vp ap) = Except.ok da)
    (hexit : env.ffmpegExit (combine_cmd vp ap combined_output) ≠ 0) :
    (run_parallel_generation env order ot
        (Except.ok (vp, vt)) (Except.ok (ap, av))).outcome
      = RunOutcome.muxFailed "FFmpeg failed"
  ∧ (run_parallel_generation env order ot
        (Except.ok (vp, vt)) (Except.ok (ap, av))).outputPath = none
  ∧ (run_parallel_generation env order ot
        (Except.ok (vp, vt)) (Except.ok (ap, av))).muxInvokedWith = some (vp, ap) := by
  have hcomb : combine_video_audio env vp ap combined_output
      = (Except.error "FFmpeg failed",
         ["Video duration: " ++ toString dv ++ "s",
          "Audio duration: " ++ toString da ++ "s",
          "Running: ffmpeg -i " ++ vp ++ " -i " ++ ap ++ " -shortest " ++ combined_output,
          "❌ FFmpeg failed: " ++ env.muxStderr]) := by
    unfold combine_video_audio
    rw [hp1, hp2]
    simp [hexit]
  rw [run_parallel_generation, joinAll_pair _ _ order ho]
  simp [post_join, hv, ha, hcomb, Except.toOption]

/-- Witness for C6: both artifacts present, ffmpeg exits 1. -/
theorem c6_witness :
    pyTruthy (some video_path_saved) = true
  ∧ envMuxFails.ffmpegExit (combine_cmd video_path_saved audio_path combined_output) ≠ 0
  ∧ ((run_parallel_generation envMuxFails [TaskId.video, TaskId.audio] 41
        (Except.ok (video_path_saved, 40)) (Except.ok (audio_path, 15))).outcome
      = RunOutcome.muxFailed "FFmpeg failed"
    ∧ (run_parallel_generation envMuxFails [TaskId.video, TaskId.audio] 41
        (Except.ok (video_path_saved, 40)) (Except.ok (audio_path, 15))).outputPath = none
    ∧ (run_parallel_generation envMuxFails [TaskId.video, TaskId.audio] 41
        (Except.ok (video_path_saved, 40)) (Except.ok (audio_path, 15))).muxInvokedWith
      = some (video_path_saved, audio_path)) :=
  ⟨by decide, by decide,
    c6_mux_error_terminal envMuxFails [TaskId.video, TaskId.audio] 41 (Or.inl rfl)
      video_path_saved audio_path 40 15 (by decide) (by decide) 5 5 rfl rfl (by decide)⟩

/-- C7 counterexample: with the credential absent, the orchestrator does
not fail fast — both tasks are still submitted to the executor, the
configuration error is raised inside the audio task, and with a
successful video the run proceeds to emit the video-only artifact. -/
theorem c7_counterexample :
    tts_task none submitNoId handleQueryAllDown resGood
        = Except.error "DO_GRADIENT_API_KEY environment variable required"
  ∧ (run_parallel_generation env0 [TaskId.video, TaskId.audio] 40
        (Except.ok (video_path_saved, 40))
        (tts_task none submitNoId handleQueryAllDown resGood)).launched
      = [TaskId.video, TaskId.audio]
  ∧ (run_parallel_generation env0 [TaskId.video, TaskId.audio] 40
        (Except.ok (video_path_saved, 40))
        (tts_task none submitNoId handleQueryAllDown resGood)).outcome
      = RunOutcome.videoOnly video_only_output :=
  ⟨rfl, rfl, rfl⟩

/-- C7 (amended): a missing or empty `DO_GRADIENT_API_KEY` raises the
configuration error inside the audio task, before that task issues any
request — the audio outcome is independent of the submit response and
provider behaviour; both tasks are nonetheless launched, and the run
proceeds per the decision table (video-only when video succeeds). -/
theorem c7_config_error_inside_audio_task (env : MuxEnv) (order : List TaskId) (ot : Nat)
    (apiKey : Option String) (submit : SubmitResp)
    (query : Option String → Nat → StatusResp) (res : ResultResp)
    (vp : String) (vt : Nat)
    (ho : order = [TaskId.video, TaskId.audio] ∨ order = [TaskId.audio, TaskId.video])
    (hk : pyTruthy apiKey = false) (hv : pyTruthy (some vp) = true) :
    tts_task apiKey submit query res
        = Except.error "DO_GRADIENT_API_KEY environment variable required"
  ∧ (run_parallel_generation env order ot (Except.ok (vp, vt))
        (tts_task apiKey submit query res)).launched = [TaskId.video, TaskId.audio]
  ∧ (run_parallel_generation env order ot (Except.ok (vp, vt))
        (tts_task apiKey submit query res)).outcome
      = RunOutcome.videoOnly video_only_output := by
  have htask : tts_task apiKey submit query res
      = Except.error "DO_GRADIENT_API_KEY environment variable required" := by
    unfold tts_task generate_tts_with_gradient
    rw [hk]
    simp
  refine ⟨htask, ?_, ?_⟩ <;>
    rw [htask, run_parallel_generation, joinAll_pair _ _ order ho] <;>
    simp [post_join, hv, pyTruthy_none, Except.toOption]

/-- Witness for C7 (amended): empty credential, video saved. -/
theorem c7_witness :
    pyTruthy (some "") = false
  ∧ pyTruthy (some video_path_saved) = true
  ∧ (tts_task (some "") submitNoId handleQueryAllDown resGood
        = Except.error "DO_GRADIENT_API_KEY environment variable required"
    ∧ (run_parallel_generation env0 [TaskId.video, TaskId.audio] 40
          (Except.ok (video_path_saved, 40))
          (tts_task (some "") submitNoId handleQueryAllDown resGood)).launched
        = [TaskId.video, TaskId.audio]
    ∧ (run_parallel_generation env0 [TaskId.video, TaskId.audio] 40
          (Except.ok (video_path_saved, 40))
          (tts_task (some "") submitNoId handleQueryAllDown resGood)).outcome
        = RunOutcome.videoOnly video_only_output) :=
  ⟨by decide, by decide,
    c7_config_error_inside_audio_task env0 [TaskId.video, TaskId.audio] 40 (some "")
      submitNoId handleQueryAllDown resGood video_path_saved 40 (Or.inl rfl)
      (by decide) (by decide)⟩

set_option maxRecDepth 4096 in
/-- C9 counterexample: the video-only terminal outcome emits only the
caveat line — no per-task elapsed times, no total wall-clock time, no
output-path line — so not every terminal outcome yields the full
report. -/
theorem c9_counterexample :
    (run_parallel_generation env0 [TaskId.video, TaskId.audio] 40
        (Except.ok (video_path_saved, 40))
        (Except.error "TTS generation timed out")).outcome
      = RunOutcome.videoOnly video_only_output
  ∧ (run_parallel_generation env0 [TaskId.video, TaskId.audio] 40
        (Except.ok (video_path_saved, 40))
        (Except.error "TTS generation timed out")).printed
      = ["⚠️ Audio generation failed - outputting video only"]
  ∧ ((run_parallel_generation env0 [TaskId.video, TaskId.audio] 40
        (Except.ok (video_path_saved, 40))
        (Except.error "TTS generation timed out")).printed.filter
          (fun s => s.startsWith "Total wall time")) = []
  ∧ ((run_parallel_generation env0 [TaskId.video, TaskId.audio] 40
        (Except.ok (video_path_saved, 40))
        (Except.error "TTS generation timed out")).printed.filter
          (fun s => s.startsWith "Video generation time")) = [] :=
  ⟨rfl, rfl, by decide, by decide⟩

/-- C9 (amended): only the fully-successful muxed outcome prints the
summary report (per-task elapsed times, muxing time, total wall-clock
time, output path), preceded by the mux step's own lines; the abort
outcomes (video failed, with either audio outcome) and the video-only
outcome each print a single diagnostic line, the video-only one being a
caveat (warning) on a normally-returning run that still produces the
video-only artifact; the mux-failure outcome prints the mux step's
diagnostics (the probe-duration lines, the Running line, and the
ffmpeg-failed line with the tool's stderr) followed by the
combine-failed line, and yields no artifact. -/
theorem c9_report_per_outcome (env envf : MuxEnv) (ot : Nat) (vp ap e1 e2 : String)
    (vt av : Nat)
    (hv : pyTruthy (some vp) = true) (ha : pyTruthy (some ap) = true)
    (dv da dv2 da2 : Rat)
    (hp1 : env.probe (probe_cmd vp) = Except.ok dv)
    (hp2 : env.probe (audio_probe_cmd vp ap) = Except.ok da)
    (hexit : env.ffmpegExit (combine_cmd vp ap combined_output) = 0)
    (hq1 : envf.probe (probe_cmd vp) = Except.ok dv2)
    (hq2 : envf.probe (audio_probe_cmd vp ap) = Except.ok da2)
    (hexitf : envf.ffmpegExit (combine_cmd vp ap combined_output) ≠ 0) :
    (run_parallel_generation env [TaskId.video, TaskId.audio] ot
        (Except.ok (vp, vt)) (Except.ok (ap, av))).printed
      = ["Video duration: " ++ toString dv ++ "s",
         "Audio duration: " ++ toString da ++ "s",
         "Running: ffmpeg -i " ++ vp ++ " -i " ++ ap ++ " -shortest " ++ combined_output,
         "✅ Combined in " ++ toString env.muxElapsed ++ "s",
         "Output: " ++ combined_output,
         "📊 GENERATION SUMMARY",
         "Video generation time: " ++ toString vt ++ "s",
         "Audio generation time: " ++ toString av ++ "s",
         "Muxing time: " ++ toString env.muxElapsed ++ "s",
         "Total wall time: " ++ toString ot ++ "s",
         "🎬 Final output: " ++ combined_output]
  ∧ (run_parallel_generation env [TaskId.video, TaskId.audio] ot
        (Except.ok (vp, vt)) (Except.error e2)).printed
      = ["⚠️ Audio generation failed - outputting video only"]
  ∧ (run_parallel_generation env [TaskId.video, TaskId.audio] ot
        (Except.ok (vp, vt)) (Except.error e2)).outputPath = some video_only_output
  ∧ (run_parallel_generation env [TaskId.video, TaskId.audio] ot
        (Except.error e1) (Except.error e2)).printed
      = ["❌ Video generation failed - cannot proceed"]
  ∧ (run_parallel_generation env [TaskId.video, TaskId.audio] ot
        (Except.error e1) (Except.ok (ap, av))).printed
      = ["❌ Video generation failed - cannot proceed"]
  ∧ (run_parallel_generation envf [TaskId.video, TaskId.audio] ot
        (Except.ok (vp, vt)) (Except.ok (ap, av))).printed
      = ["Video duration: " ++ toString dv2 ++ "s",
         "Audio duration: " ++ toString da2 ++ "s",
         "Running: ffmpeg -i " ++ vp ++ " -i " ++ ap ++ " -shortest " ++ combined_output,
         "❌ FFmpeg failed: " ++ envf.muxStderr,
         "❌ Combine failed: FFmpeg failed"]
  ∧ (run_parallel_generation envf [TaskId.video, TaskId.audio] ot
        (Except.ok (vp, vt)) (Except.ok (ap, av))).outputPath = none := by
  have hcomb : combine_video_audio env vp ap combined_output
      = (Except.ok (combined_output, env.muxElapsed),
         ["Video duration: " ++ toString dv ++ "s",
          "Audio duration: " ++ toString da ++ "s",
          "Running: ffmpeg -i " ++ vp ++ " -i " ++ ap ++ " -shortest " ++ combined_output,
          "✅ Combined in " ++ toString env.muxElapsed ++ "s",
          "Output: " ++ combined_output]) := by
    unfold combine_video_audio
    rw [hp1, hp2]
    simp [hexit]
  have hcombf : combine_video_audio envf vp ap combined_output
      = (Except.error "FFmpeg failed",
         ["Video duration: " ++ toString dv2 ++ "s",
          "Audio duration: " ++ toString da2 ++ "s",
          "Running: ffmpeg -i " ++ vp ++ " -i " ++ ap ++ " -shortest " ++ combined_output,
          "❌ FFmpeg failed: " ++ envf.muxStderr]) := by
    unfold combine_video_audio
    rw [hq1, hq2]
    simp [hexitf]
  refine ⟨?_, ?_, ?_, ?_, ?_, ?_, ?_⟩ <;>
    rw [run_parallel_generation, joinAll_pair _ _ [TaskId.video, TaskId.audio] (Or.inl rfl)]
  · simp [post_join, hv, ha, hcomb, Except.toOption]
  · simp [post_join, hv, pyTruthy_none, Except.toOption]
  · simp [post_join, hv, pyTruthy_none, Except.toOption]
  · simp [post_join, pyTruthy_none, Except.toOption]
  · simp [post_join, pyTruthy_none, Except.toOption]
  · simp [post_join, hv, ha, hcombf, Except.toOption]
  · simp [post_join, hv, ha, hcombf, Except.toOption]

/-- Witness for C9 (amended): benign environment for success, the
exits-1 environment for the mux failure, concrete times. -/
theorem c9_witness :
    pyTruthy (some video_path_saved) = true
  ∧ env0.ffmpegExit (combine_cmd video_path_saved audio_path combined_output) = 0
  ∧ envMuxFails.ffmpegExit (combine_cmd video_path_saved audio_path combined_output) ≠ 0
  ∧ ((run_parallel_generation env0 [TaskId.video, TaskId.audio] 41
        (Except.ok (video_path_saved, 40)) (Except.ok (audio_path, 15))).printed
      = ["Video duration: " ++ toString (5 : Rat) ++ "s",
         "Audio duration: " ++ toString (5 : Rat) ++ "s",
         "Running: ffmpeg -i " ++ video_path_saved ++ " -i " ++ audio_path
           ++ " -shortest " ++ combined_output,
         "✅ Combined in " ++ toString env0.muxElapsed ++ "s",
         "Output: " ++ combined_output,
         "📊 GENERATION SUMMARY",
         "Video generation time: " ++ toString 40 ++ "s",
         "Audio generation time: " ++ toString 15 ++ "s",
         "Muxing time: " ++ toString env0.muxElapsed ++ "s",
         "Total wall time: " ++ toString 41 ++ "s",
         "🎬 Final output: " ++ combined_output]
    ∧ (run_parallel_generation env0 [TaskId.video, TaskId.audio] 41
          (Except.ok (video_path_saved, 40)) (Except.error "TTS job failed")).printed
        = ["⚠️ Audio generation failed - outputting video only"]
    ∧ (run_parallel_generation env0 [TaskId.video, TaskId.audio] 41
          (Except.ok (video_path_saved, 40)) (Except.error "TTS job failed")).outputPath
        = some video_only_output
    ∧ (run_parallel_generation env0 [TaskId.video, TaskId.audio] 41
          (Except.error "Video generation failed") (Except.error "TTS job failed")).printed
        = ["❌ Video generation failed - cannot proceed"]
    ∧ (run_parallel_generation env0 [TaskId.video, TaskId.audio] 41
          (Except.error "Video generation failed") (Except.ok (audio_path, 15))).printed
        = ["❌ Video generation failed - cannot proceed"]
    ∧ (run_parallel_generation envMuxFails [TaskId.video, TaskId.audio] 41
          (Except.ok (video_path_saved, 40)) (Except.ok (audio_path, 15))).printed
        = ["Video duration: " ++ toString (5 : Rat) ++ "s",
           "Audio duration: " ++ toString (5 : Rat) ++ "s",
           "Running: ffmpeg -i " ++ video_path_saved ++ " -i " ++ audio_path
             ++ " -shortest " ++ combined_output,
           "❌ FFmpeg failed: " ++ envMuxFails.muxStderr,
           "❌ Combine failed: FFmpeg failed"]
    ∧ (run_parallel_generation envMuxFails [TaskId.video, TaskId.audio] 41
          (Except.ok (video_path_saved, 40)) (Except.ok (audio_path, 15))).outputPath
        = none) :=
  ⟨by decide, by decide, by decide,
    c9_report_per_outcome env0 envMuxFails 41 video_path_saved audio_path
      "Video generation failed" "TTS job failed" 40 15 (by decide) (by decide)
      5 5 5 5 rfl rfl rfl rfl rfl (by decide)⟩

/-- C5: the combine invocation is as specified — video stream copied
without re-transcoding, audio re-encoded, first video stream of input 0
and first audio stream of input 1 selected, `-shortest` bounding the
output to `min(video_duration, audio_duration)` — but the audio-duration
probe is malformed: the source overwrites index 5 of the probe command
(the `-of` flag) instead of the input path at index 7, so the audio
probe still names the video file as its input and is not an independent
probe of the audio input. -/
theorem c5_mux_commands :
    combine_cmd "/v.mp4" "/a.mp3" "/out.mp4"
      = ["ffmpeg", "-y", "-i", "/v.mp4", "-i", "/a.mp3", "-c:v", "copy", "-c:a", "aac",
         "-shortest", "-map", "0:v:0", "-map", "1:a:0", "/out.mp4"]
  ∧ muxOutputDuration (combine_cmd "/v.mp4" "/a.mp3" "/out.mp4") (26/5) (39/5) = 26/5
  ∧ muxOutputDuration (combine_cmd "/v.mp4" "/a.mp3" "/out.mp4") (39/5) (26/5) = 26/5
  ∧ probe_cmd "/v.mp4"
      = ["ffprobe", "-v", "error", "-show_entries", "format=duration",
         "-of", "default=noprint_wrappers=1:nokey=1", "/v.mp4"]
  ∧ audio_probe_cmd "/v.mp4" "/a.mp3"
      = ["ffprobe", "-v", "error", "-show_entries", "format=duration",
         "/a.mp3", "default=noprint_wrappers=1:nokey=1", "/v.mp4"]
  ∧ audio_probe_cmd "/v.mp4" "/a.mp3" ≠ probe_cmd "/a.mp3" := by
  have hsh : (combine_cmd "/v.mp4" "/a.mp3" "/out.mp4").contains "-shortest" = true := by
    decide
  refine ⟨rfl, ?_, ?_, rfl, rfl, by decide⟩
  · rw [muxOutputDuration, if_pos hsh, min_def,
      if_pos (by norm_num : (26 / 5 : Rat) ≤ 39 / 5)]
  · rw [muxOutputDuration, if_pos hsh, min_def,
      if_neg (by norm_num : ¬ (39 / 5 : Rat) ≤ 26 / 5)]
